import Mathlib

/-!
Verification of the snapshot-caching / budget-guarded refresh core of the
house_market_tracker repository.

The definitions below are a shallow embedding of the TypeScript source:

* `src/lib/apiUsage.ts`        — monthly usage ledger + budget guard
  (`withRentCastBudget`, `parseRentcastStatus`, the atomic reserve).
* `src/app/api/v1/markets/route.ts`  — `POST /api/v1/markets` (addMarket).
* `src/app/api/v1/summary/route.ts`  — `GET /api/v1/summary` (getOrRefresh).
* `src/providers/rentcast.ts`  — provider normalization
  (`computeKpisFromMarketData`, `computeConfidence`) and the provider's own
  failure modes (the `throw` sites of `rentcastFetch` / `fetchMarketData`).
* `src/app/markets/[id]/page.tsx`    — `MARKET_ALIAS` resolution.

Machine numbers are modelled as `Nat`/`Int`/`Rat`; timestamps are epoch
milliseconds (`Int`); JSON nullable numerics are `Option Rat`.  Persistent
rows are explicit lists / record fields threaded through each handler.
External calls (the RentCast HTTP fetch, the geocoder) are parameters of the
handlers: the handler receives the outcome the external collaborator would
produce, which is exactly the information flow of the `await`ed call in the
source.
-/

/-! ## Usage ledger (`src/lib/apiUsage.ts`) -/

/-- `RENTCAST_MONTHLY_LIMIT` from `src/lib/apiUsage.ts`. -/
def RENTCAST_MONTHLY_LIMIT : Nat := 50

/-- The atomic conditional reserve: `prisma.apiUsage.updateMany` with
`where calls < RENTCAST_MONTHLY_LIMIT, data: calls increment 1`.  Returns
whether a row matched (the reservation succeeded) and the resulting counter
value.  The whole step is a single atomic conditional update in the source,
so one invocation is one indivisible transition of the counter. -/
def reserve (calls : Nat) : Bool × Nat :=
  if calls < RENTCAST_MONTHLY_LIMIT then (true, calls + 1) else (false, calls)

/-- `n` reservation attempts against the same period counter, each one an
atomic `reserve` step.  Because every attempt is a single indivisible
conditional update, any concurrent schedule of `n` attempts is some
sequential order of these steps; `runReserves` is that common sequential
composition.  Returns (number of successful attempts, final counter). -/
def runReserves : Nat → Nat → Nat × Nat
  | 0, c => (0, c)
  | n + 1, c =>
    let r := reserve c
    let rest := runReserves n r.2
    (cond r.1 1 0 + rest.1, rest.2)

theorem reserve_of_lt {c : Nat} (h : c < RENTCAST_MONTHLY_LIMIT) :
    reserve c = (true, c + 1) := by
  simp [reserve, h]

theorem reserve_of_ge {c : Nat} (h : ¬ c < RENTCAST_MONTHLY_LIMIT) :
    reserve c = (false, c) := by
  simp [reserve, h]

theorem runReserves_spec (n c : Nat) :
    (runReserves n c).1 = min n (RENTCAST_MONTHLY_LIMIT - c) ∧
    (runReserves n c).2 = max c (min RENTCAST_MONTHLY_LIMIT (c + n)) := by
  induction n generalizing c with
  | zero =>
    simp only [runReserves, RENTCAST_MONTHLY_LIMIT]
    omega
  | succ n ih =>
    by_cases h : c < RENTCAST_MONTHLY_LIMIT
    · simp only [runReserves, reserve_of_lt h, cond_true]
      rcases ih (c + 1) with ⟨h1, h2⟩
      simp only [RENTCAST_MONTHLY_LIMIT] at h1 h2 h ⊢
      constructor
      · simp only [h1]; omega
      · simp only [h2]; omega
    · simp only [runReserves, reserve_of_ge h, cond_false]
      rcases ih c with ⟨h1, h2⟩
      simp only [RENTCAST_MONTHLY_LIMIT] at h1 h2 h ⊢
      constructor
      · simp only [h1]; omega
      · simp only [h2]; omega

/-- C1: a reservation succeeds iff the counter is strictly below the limit 50
at the moment of the atomic conditional update; success increments the
counter by exactly 1; for `N` concurrent attempts in one period with `P`
prior calls (`P ≤ 50`), exactly `min N (50 - P)` succeed; and the counter
never exceeds 50 in any state reachable by reservation steps. -/
theorem budget_cap_invariant (N P : Nat) (hP : P ≤ 50) :
    (∀ c : Nat, ((reserve c).1 = true ↔ c < 50) ∧
      ((reserve c).1 = true → (reserve c).2 = c + 1) ∧
      ((reserve c).1 = false → (reserve c).2 = c) ∧
      (c ≤ 50 → (reserve c).2 ≤ 50)) ∧
    (runReserves N P).1 = min N (50 - P) ∧
    (runReserves N P).2 ≤ 50 := by
  refine ⟨fun c => ?_, ?_, ?_⟩
  · by_cases h : c < 50
    · rw [reserve_of_lt (c := c) h]
      refine ⟨by simp [h], by simp, by simp, fun _ => by omega⟩
    · rw [reserve_of_ge (c := c) h]
      refine ⟨by simp [h], by simp, by simp, fun hc => by simpa using hc⟩
  · have := (runReserves_spec N P).1
    simpa [RENTCAST_MONTHLY_LIMIT] using this
  · have := (runReserves_spec N P).2
    rw [this]
    simp only [RENTCAST_MONTHLY_LIMIT]
    omega

/-- Witness for `budget_cap_invariant` at N = 7, P = 47. -/
theorem budget_cap_invariant_witness :
    (47 : Nat) ≤ 50 ∧
    (runReserves 7 47).1 = min 7 (50 - 47) ∧ (runReserves 7 47).2 ≤ 50 := by
  have h := budget_cap_invariant 7 47 (by decide)
  exact ⟨by decide, h.2.1, h.2.2⟩

/-! ## Error parsing and the budget guard (`src/lib/apiUsage.ts`) -/

/-- The characters the source's regex `\s` may skip (the messages built by
the provider only ever use a single space here). -/
def isWsChar (c : Char) : Bool :=
  c == ' ' || c == '\t' || c == '\n' || c == '\r'

/-- A regex word character, for the `\b` boundary after `\d{3}`. -/
def isWordChar (c : Char) : Bool :=
  c.isAlphanum || c == '_'

/-- The literal `[RentCast]` the regex `^\[RentCast\]` anchors on. -/
def rcPfx : List Char := "[RentCast]".toList

/-- Drop leading whitespace, counting how many characters were dropped. -/
def dropWsCount : List Char → Nat × List Char
  | [] => (0, [])
  | c :: cs =>
    if isWsChar c then
      let r := dropWsCount cs
      (r.1 + 1, r.2)
    else (0, c :: cs)

/-- `parseRentcastStatus` from `src/lib/apiUsage.ts`: match the message
against `^\[RentCast\]\s+(\d{3})\b` and return the three-digit status. -/
def parseRentcastStatus (msg : String) : Option Nat :=
  if rcPfx.isPrefixOf msg.toList then
    let rest := msg.toList.drop rcPfx.length
    let ws := dropWsCount rest
    if ws.1 = 0 then none
    else
      match ws.2 with
      | d1 :: d2 :: d3 :: tail =>
        if d1.isDigit && d2.isDigit && d3.isDigit &&
            (match tail with | [] => true | c :: _ => !(isWordChar c)) then
          some ((d1.toNat - 48) * 100 + (d2.toNat - 48) * 10 + (d3.toNat - 48))
        else none
      | _ => none
  else none

/-- An error object as built by `makeHttpError` in `src/lib/apiUsage.ts`:
a message plus an HTTP `status` and optional machine `code` field. -/
structure HttpError where
  message : String
  status : Nat
  code : Option String
deriving Repr, DecidableEq

/-- Outcome of the guarded operation `fn()` (the upstream provider call):
either a value or a thrown error, with `String(e?.message ?? "")` as the
message the guard's catch block observes. -/
inductive OpOutcome (T : Type) where
  | success (value : T)
  | failure (msg : String)

/-- What `withRentCastBudget` produces: the returned value or the thrown
`HttpError`. -/
inductive GuardResult (T : Type) where
  | ok (value : T)
  | thrown (e : HttpError)

/-- Observable effects of one `withRentCastBudget` invocation: its result,
the usage counter afterwards, how many refund (decrement) updates ran,
whether the reservation succeeded, and how many times `fn()` was invoked. -/
structure GuardOutput (T : Type) where
  result : GuardResult T
  calls : Nat
  refunds : Nat
  reserved : Bool
  fetches : Nat

/-- The quota-exhausted message built by the guard. -/
def quotaExhaustedMessage : String :=
  "API quota exhausted. Cannot make new RentCast calls right now."

/-- `withRentCastBudget` from `src/lib/apiUsage.ts`, as a function of the
current period counter and of the guarded operation's outcome.  The
`ensure` upsert (step 1) only creates the zero row and does not change an
existing counter, so it is the identity on the counter value. -/
def withRentCastBudget {T : Type} (calls : Nat) (outcome : OpOutcome T) :
    GuardOutput T :=
  let r := reserve calls
  if r.1 = false then
    { result := .thrown ⟨quotaExhaustedMessage, 429, some "RENTCAST_QUOTA_EXHAUSTED"⟩,
      calls := r.2, refunds := 0, reserved := false, fetches := 0 }
  else
    match outcome with
    | .success v =>
      { result := .ok v, calls := r.2, refunds := 0, reserved := true, fetches := 1 }
    | .failure msg =>
      let status := parseRentcastStatus msg
      let shouldRefund : Bool :=
        match status with
        | none => true
        | some s => s == 429 || 500 ≤ s
      let c1 := if shouldRefund then r.2 - 1 else r.2
      let refunds1 : Nat := if shouldRefund then 1 else 0
      if msg = "RentCast monthly call limit reached" then
        { result := .thrown ⟨quotaExhaustedMessage, 429, some "RENTCAST_QUOTA_EXHAUSTED"⟩,
          calls := c1, refunds := refunds1, reserved := true, fetches := 1 }
      else if rcPfx.isPrefixOf msg.toList then
        let s := status.getD 502
        if s = 404 then
          { result := .thrown ⟨"No RentCast data available for that ZIP code. Try a nearby ZIP or a different market.",
              422, some "RENTCAST_NO_DATA"⟩,
            calls := c1 - 1, refunds := refunds1 + 1, reserved := true, fetches := 1 }
        else if s = 429 then
          { result := .thrown ⟨"RentCast rate limit/quota hit. Try again later.",
              429, some "RENTCAST_RATE_LIMIT"⟩,
            calls := c1, refunds := refunds1, reserved := true, fetches := 1 }
        else
          { result := .thrown ⟨"RentCast request failed (" ++ toString s ++ "). Try again later.",
              502, some "RENTCAST_PROVIDER_ERROR"⟩,
            calls := c1, refunds := refunds1, reserved := true, fetches := 1 }
      else
        { result := .thrown ⟨(if msg = "" then "Upstream request failed. Try again later."
              else "Upstream request failed: " ++ msg),
            502, some "UPSTREAM_ERROR"⟩,
          calls := c1, refunds := refunds1, reserved := true, fetches := 1 }

/-- The failure classes the spec calls refundable, keyed by the parsed
upstream status exactly as the claim states them: 429, 500+, 404, or an
undeterminable class. -/
def refundableClass (msg : String) : Bool :=
  match parseRentcastStatus msg with
  | none => true
  | some s => s == 429 || 500 ≤ s || s == 404

theorem parse_some_rcStart {msg : String} {s : Nat}
    (h : parseRentcastStatus msg = some s) :
    rcPfx.isPrefixOf msg.toList = true := by
  unfold parseRentcastStatus at h
  by_cases hp : rcPfx.isPrefixOf msg.toList = true
  · exact hp
  · rw [if_neg hp] at h
    exact absurd h (by simp)

theorem parse_quota_literal_none :
    parseRentcastStatus "RentCast monthly call limit reached" = none := by
  decide

theorem guard_success {T : Type} (c : Nat) (v : T) (hc : c < 50) :
    withRentCastBudget c (.success v) =
      { result := .ok v, calls := c + 1, refunds := 0, reserved := true, fetches := 1 } := by
  have hres : reserve c = (true, c + 1) := reserve_of_lt hc
  simp [withRentCastBudget, hres]

theorem guard_failure_none {T : Type} {c : Nat} {msg : String} (hc : c < 50)
    (hparse : parseRentcastStatus msg = none) :
    (withRentCastBudget (T := T) c (.failure msg)).calls = c ∧
    (withRentCastBudget (T := T) c (.failure msg)).refunds = 1 ∧
    (withRentCastBudget (T := T) c (.failure msg)).reserved = true := by
  have hres : reserve c = (true, c + 1) := reserve_of_lt hc
  simp only [withRentCastBudget, hres]
  split_ifs <;> simp_all

theorem guard_quota_exhausted {T : Type} {c : Nat} (hc : ¬ c < 50)
    (outcome : OpOutcome T) :
    withRentCastBudget c outcome =
      { result := .thrown ⟨quotaExhaustedMessage, 429, some "RENTCAST_QUOTA_EXHAUSTED"⟩,
        calls := c, refunds := 0, reserved := false, fetches := 0 } := by
  have hres : reserve c = (false, c) := reserve_of_ge hc
  simp [withRentCastBudget, hres]

theorem guard_failure_404 {T : Type} {c : Nat} {msg : String} (hc : c < 50)
    (hparse : parseRentcastStatus msg = some 404) :
    withRentCastBudget (T := T) c (.failure msg) =
      { result := .thrown ⟨"No RentCast data available for that ZIP code. Try a nearby ZIP or a different market.",
          422, some "RENTCAST_NO_DATA"⟩,
        calls := c, refunds := 1, reserved := true, fetches := 1 } := by
  have hres : reserve c = (true, c + 1) := reserve_of_lt hc
  have hpf : rcPfx <+: msg.data := List.isPrefixOf_iff_prefix.mp (parse_some_rcStart hparse)
  have hq : ¬ msg = "RentCast monthly call limit reached" := by
    intro h; rw [h, parse_quota_literal_none] at hparse; cases hparse
  have hsr : ((404 : Nat) == 429 || decide (500 ≤ (404 : Nat))) = false := by decide
  simp [withRentCastBudget, hres, hparse, hq, hpf, hsr]

theorem guard_failure_429 {T : Type} {c : Nat} {msg : String} (hc : c < 50)
    (hparse : parseRentcastStatus msg = some 429) :
    withRentCastBudget (T := T) c (.failure msg) =
      { result := .thrown ⟨"RentCast rate limit/quota hit. Try again later.",
          429, some "RENTCAST_RATE_LIMIT"⟩,
        calls := c, refunds := 1, reserved := true, fetches := 1 } := by
  have hres : reserve c = (true, c + 1) := reserve_of_lt hc
  have hpf : rcPfx <+: msg.data := List.isPrefixOf_iff_prefix.mp (parse_some_rcStart hparse)
  have hq : ¬ msg = "RentCast monthly call limit reached" := by
    intro h; rw [h, parse_quota_literal_none] at hparse; cases hparse
  simp [withRentCastBudget, hres, hparse, hq, hpf]

theorem guard_failure_other_status {T : Type} {c : Nat} {msg : String} {s : Nat}
    (hc : c < 50) (hparse : parseRentcastStatus msg = some s)
    (h404 : s ≠ 404) (h429 : s ≠ 429) :
    withRentCastBudget (T := T) c (.failure msg) =
      { result := .thrown ⟨"RentCast request failed (" ++ toString s ++ "). Try again later.",
          502, some "RENTCAST_PROVIDER_ERROR"⟩,
        calls := if 500 ≤ s then c else c + 1,
        refunds := if 500 ≤ s then 1 else 0,
        reserved := true, fetches := 1 } := by
  have hres : reserve c = (true, c + 1) := reserve_of_lt hc
  have hpf : rcPfx <+: msg.data := List.isPrefixOf_iff_prefix.mp (parse_some_rcStart hparse)
  have hq : ¬ msg = "RentCast monthly call limit reached" := by
    intro h; rw [h, parse_quota_literal_none] at hparse; cases hparse
  have hbe : (s == 429) = false := by
    simp [h429]
  by_cases h5 : 500 ≤ s
  · simp [withRentCastBudget, hres, hparse, hq, hpf, hbe, h5, h404, h429]
  · simp [withRentCastBudget, hres, hparse, hq, hpf, hbe, h5, h404, h429]

theorem guard_failure_unknown {T : Type} {c : Nat} {msg : String} (hc : c < 50)
    (hparse : parseRentcastStatus msg = none)
    (hq : msg ≠ "RentCast monthly call limit reached")
    (hpf : ¬ rcPfx <+: msg.data) :
    withRentCastBudget (T := T) c (.failure msg) =
      { result := .thrown ⟨(if msg = "" then "Upstream request failed. Try again later."
            else "Upstream request failed: " ++ msg),
          502, some "UPSTREAM_ERROR"⟩,
        calls := c, refunds := 1, reserved := true, fetches := 1 } := by
  have hres : reserve c = (true, c + 1) := reserve_of_lt hc
  simp [withRentCastBudget, hres, hparse, hq, hpf]

theorem refund_correctness {T : Type} (c : Nat) (outcome : OpOutcome T)
    (hc : c < 50) :
    (withRentCastBudget c outcome).reserved = true ∧
    (∀ v : T, outcome = .success v →
      (withRentCastBudget c outcome).calls = c + 1 ∧
      (withRentCastBudget c outcome).refunds = 0) ∧
    (∀ msg : String, outcome = .failure msg → refundableClass msg = true →
      (withRentCastBudget c outcome).calls = c ∧
      (withRentCastBudget c outcome).refunds = 1) ∧
    (∀ msg : String, outcome = .failure msg → refundableClass msg = false →
      (withRentCastBudget c outcome).calls = c + 1 ∧
      (withRentCastBudget c outcome).refunds = 0) ∧
    (withRentCastBudget c outcome).refunds ≤ 1 := by
  cases outcome with
  | success v =>
    rw [guard_success c v hc]
    exact ⟨rfl, fun w _ => ⟨rfl, rfl⟩, fun m h => OpOutcome.noConfusion h, fun m h => OpOutcome.noConfusion h,
      by simp⟩
  | failure msg =>
    rcases hp : parseRentcastStatus msg with _ | s
    · have hrefble : refundableClass msg = true := by
        simp [refundableClass, hp]
      obtain ⟨hcalls, hrefunds, hreserved⟩ := guard_failure_none (T := T) hc hp
      refine ⟨hreserved, fun v h => OpOutcome.noConfusion h, ?_, ?_, by simp [hrefunds]⟩
      · intro m h _
        injection h with h'
        subst h'
        exact ⟨hcalls, hrefunds⟩
      · intro m h hf
        injection h with h'
        subst h'
        rw [hrefble] at hf
        cases hf
    · by_cases h404 : s = 404
      · subst h404
        rw [guard_failure_404 hc hp]
        have hrefble : refundableClass msg = true := by
          simp [refundableClass, hp]
        refine ⟨rfl, fun v h => OpOutcome.noConfusion h, ?_, ?_, by simp⟩
        · intro m h _
          injection h with h'
          subst h'
          exact ⟨rfl, rfl⟩
        · intro m h hf
          injection h with h'
          subst h'
          rw [hrefble] at hf
          cases hf
      · by_cases h429 : s = 429
        · subst h429
          rw [guard_failure_429 hc hp]
          have hrefble : refundableClass msg = true := by
            simp [refundableClass, hp]
          refine ⟨rfl, fun v h => OpOutcome.noConfusion h, ?_, ?_, by simp⟩
          · intro m h _
            injection h with h'
            subst h'
            exact ⟨rfl, rfl⟩
          · intro m h hf
            injection h with h'
            subst h'
            rw [hrefble] at hf
            cases hf
        · rw [guard_failure_other_status hc hp h404 h429]
          by_cases h5 : 500 ≤ s
          · have hrefble : refundableClass msg = true := by
              simp [refundableClass, hp, h5]
            refine ⟨rfl, fun v h => OpOutcome.noConfusion h, ?_, ?_, by simp [h5]⟩
            · intro m h _
              injection h with h'
              subst h'
              simp [h5]
            · intro m h hf
              injection h with h'
              subst h'
              rw [hrefble] at hf
              cases hf
          · have hrefble : refundableClass msg = false := by
              simp [refundableClass, hp, h5, h404, h429]
            refine ⟨rfl, fun v h => OpOutcome.noConfusion h, ?_, ?_, by simp [h5]⟩
            · intro m h hf
              injection h with h'
              subst h'
              rw [hrefble] at hf
              cases hf
            · intro m h _
              injection h with h'
              subst h'
              simp [h5]

theorem refund_correctness_witness :
    (3 : Nat) < 50 ∧
    refundableClass "[RentCast] 500 Internal Server Error: boom" = true ∧
    (withRentCastBudget 3
      (OpOutcome.failure (T := Unit) "[RentCast] 500 Internal Server Error: boom")).calls = 3 ∧
    (withRentCastBudget 3
      (OpOutcome.failure (T := Unit) "[RentCast] 500 Internal Server Error: boom")).refunds = 1 := by
  have h := refund_correctness (T := Unit) 3
    (OpOutcome.failure "[RentCast] 500 Internal Server Error: boom") (by decide)
  have hr := h.2.2.1 "[RentCast] 500 Internal Server Error: boom" rfl (by decide)
  exact ⟨by decide, by decide, hr.1, hr.2⟩

theorem upstream_error_taxonomy (c : Nat) (msg : String) (hc : c < 50) :
    (parseRentcastStatus msg = some 404 →
      (withRentCastBudget (T := Unit) c (.failure msg)).result =
        .thrown ⟨"No RentCast data available for that ZIP code. Try a nearby ZIP or a different market.",
          422, some "RENTCAST_NO_DATA"⟩ ∧
      (withRentCastBudget (T := Unit) c (.failure msg)).calls = c ∧
      (withRentCastBudget (T := Unit) c (.failure msg)).refunds = 1) ∧
    (parseRentcastStatus msg = some 429 →
      (withRentCastBudget (T := Unit) c (.failure msg)).result =
        .thrown ⟨"RentCast rate limit/quota hit. Try again later.",
          429, some "RENTCAST_RATE_LIMIT"⟩) ∧
    (∀ s : Nat, parseRentcastStatus msg = some s → s ≠ 404 → s ≠ 429 →
      ∃ e : HttpError, (withRentCastBudget (T := Unit) c (.failure msg)).result = .thrown e ∧
        e.status = 502 ∧ e.code = some "RENTCAST_PROVIDER_ERROR") ∧
    (parseRentcastStatus msg = none →
      msg ≠ "RentCast monthly call limit reached" →
      ¬ rcPfx <+: msg.data →
      ∃ e : HttpError, (withRentCastBudget (T := Unit) c (.failure msg)).result = .thrown e ∧
        e.status = 502 ∧ e.code = some "UPSTREAM_ERROR" ∧
        e.message = (if msg = "" then "Upstream request failed. Try again later."
          else "Upstream request failed: " ++ msg)) := by
  refine ⟨?_, ?_, ?_, ?_⟩
  · intro hp
    rw [guard_failure_404 hc hp]
    exact ⟨rfl, rfl, rfl⟩
  · intro hp
    rw [guard_failure_429 hc hp]
  · intro s hp h404 h429
    rw [guard_failure_other_status hc hp h404 h429]
    exact ⟨_, rfl, rfl, rfl⟩
  · intro hp hq hpf
    rw [guard_failure_unknown hc hp hq hpf]
    exact ⟨_, rfl, rfl, rfl, rfl⟩

theorem upstream_error_taxonomy_witness :
    (0 : Nat) < 50 ∧
    parseRentcastStatus "[RentCast] 404 Not Found: no data" = some 404 ∧
    (withRentCastBudget (T := Unit) 0
      (.failure "[RentCast] 404 Not Found: no data")).result =
      .thrown ⟨"No RentCast data available for that ZIP code. Try a nearby ZIP or a different market.",
        422, some "RENTCAST_NO_DATA"⟩ ∧
    (withRentCastBudget (T := Unit) 0
      (.failure "[RentCast] 404 Not Found: no data")).calls = 0 ∧
    (withRentCastBudget (T := Unit) 0
      (.failure "[RentCast] 404 Not Found: no data")).refunds = 1 := by
  have h := (upstream_error_taxonomy 0 "[RentCast] 404 Not Found: no data"
    (by decide)).1 (by decide)
  exact ⟨by decide, by decide, h.1, h.2.1, h.2.2⟩

/-! ## Data model and provider (`src/providers/rentcast.ts`, prisma rows) -/

/-- The KPI record of a provider snapshot: `{medianPrice, medianRent, ppsf,
dom, confidence}`, each a nullable numeric. -/
structure Kpis where
  medianPrice : Option Rat
  medianRent : Option Rat
  ppsf : Option Rat
  dom : Option Rat
  confidence : Option Rat
deriving Repr, DecidableEq

/-- A monthly series point `{date, medianPrice, medianRent}`. -/
structure SeriesPoint where
  date : String
  medianPrice : Option Rat
  medianRent : Option Rat
deriving Repr, DecidableEq

/-- The normalized aggregate returned by `fetchRentCastAggregate`
(`ProviderSnapshot` in `src/providers/rentcast.ts`); `asOf` is epoch
milliseconds.  The `dimensions`/`sourceMeta` blobs are not needed by any
claim and are omitted from the row model. -/
structure ProviderSnapshot where
  asOf : Int
  kpis : Kpis
  series : List SeriesPoint
deriving Repr, DecidableEq

/-- The failure modes of `fetchRentCastAggregate`: the four `throw` sites in
`src/providers/rentcast.ts` (`rentcastFetch` / `fetchMarketData`). -/
inductive ProviderFailure where
  | noApiKey
  | httpError (status : Nat) (statusText : String) (body : String)
  | unsupportedMarketId (marketId : String)
  | emptyArray (marketId : String)
deriving Repr, DecidableEq

/-- The message carried by each provider failure, exactly as built at the
corresponding `throw new Error(...)` site. -/
def ProviderFailure.message : ProviderFailure → String
  | .noApiKey => "RENTCAST_API_KEY not set"
  | .httpError s st body =>
    "[RentCast] " ++ toString s ++ " " ++ st ++ ": " ++
      (if body = "" then "No body" else body)
  | .unsupportedMarketId m =>
    "[RentCast] Unsupported marketId format for /v1/markets: " ++ m
  | .emptyArray m =>
    "[RentCast] /v1/markets returned an empty array for " ++ m

/-- Outcome of one `fetchRentCastAggregate` invocation. -/
inductive ProviderResult where
  | ok (snap : ProviderSnapshot)
  | fail (f : ProviderFailure)
deriving Repr, DecidableEq

/-- A `Snapshot` row (post-migration columns used by the handlers). -/
structure Snapshot where
  marketId : String
  propertyType : String
  asOf : Int
  kpis : Kpis
  series : List SeriesPoint
deriving Repr, DecidableEq

/-- A `Market` row (columns used by the handlers). -/
structure Market where
  id : String
  city : Option String
  state : Option String
  scope : String
  hidden : Bool
deriving Repr, DecidableEq

/-- `isFresh` from both route files:
`Date.now() - asOf.getTime() < ttlHours * 60 * 60 * 1000`. -/
def isFresh (asOf : Int) (now : Int) (ttlHours : Int) : Bool :=
  now - asOf < ttlHours * 60 * 60 * 1000

/-- The row with the maximal `asOf` (first such row wins a tie), i.e. the
row `findFirst(orderBy: asOf desc)` returns among a candidate list. -/
def argmaxAsOf : List Snapshot → Option Snapshot
  | [] => none
  | s :: rest =>
    match argmaxAsOf rest with
    | none => some s
    | some b => if b.asOf > s.asOf then some b else some s

/-- `prisma.snapshot.findFirst({where: p, orderBy: asOf desc})`. -/
def latestSnapshot (p : Snapshot → Bool) (store : List Snapshot) :
    Option Snapshot :=
  argmaxAsOf (store.filter p)

/-- Counts of externally visible actions a route performed: upstream
provider fetches and successful budget reservations. -/
structure RouteEvents where
  fetches : Nat
  reservations : Nat
deriving Repr, DecidableEq

/-! ## `GET /api/v1/summary` (`src/app/api/v1/summary/route.ts`) -/

/-- The `where` filter of the summary route's snapshot lookup:
`{ marketId, propertyType: "all" }`. -/
def summaryFilter (mid : String) : Snapshot → Bool :=
  fun s => s.marketId == mid && s.propertyType == "all"

/-- The JSON response of the summary route. -/
structure SummaryResponse where
  status : Nat
  snapshot : Option Snapshot
  stale : Bool
  error : Option String
deriving Repr, DecidableEq

/-- The summary route `GET`, as a function of the snapshot table, the
query's `marketId`, the current time, and the outcome the direct
`fetchRentCastAggregate` call would produce.  Note the route calls the
provider directly — `withRentCastBudget` appears nowhere in this file —
so no reservation is ever made here. -/
def summaryGET (store : List Snapshot) (marketId : Option String)
    (now : Int) (provider : ProviderResult) :
    SummaryResponse × List Snapshot × RouteEvents :=
  match marketId with
  | none =>
    ({ status := 400, snapshot := none, stale := false,
       error := some "marketId is required" }, store, ⟨0, 0⟩)
  | some mid =>
    let snap0 := latestSnapshot (summaryFilter mid) store
    let needsRefresh :=
      match snap0 with
      | none => true
      | some s => !(isFresh s.asOf now 24)
    if needsRefresh then
      match provider with
      | .ok ps =>
        let newRow : Snapshot := ⟨mid, "all", ps.asOf, ps.kpis, ps.series⟩
        ({ status := 200, snapshot := some newRow, stale := false,
           error := none }, store ++ [newRow], ⟨1, 0⟩)
      | .fail f =>
        match snap0 with
        | some s =>
          ({ status := 200, snapshot := some s, stale := true,
             error := some f.message }, store, ⟨1, 0⟩)
        | none =>
          ({ status := 500, snapshot := none, stale := false,
             error := some f.message }, store, ⟨1, 0⟩)
    else
      ({ status := 200, snapshot := snap0, stale := false, error := none },
        store, ⟨0, 0⟩)

/-! ## `POST /api/v1/markets` (`src/app/api/v1/markets/route.ts`) -/

/-- JS `String.prototype.trim` (drop leading/trailing whitespace), embedded
over the character list so it reduces in the kernel. -/
def strTrim (s : String) : String :=
  ⟨((s.data.dropWhile Char.isWhitespace).reverse.dropWhile
      Char.isWhitespace).reverse⟩

/-- `/^\d{5}$/` on the trimmed zip. -/
def isValidZip (zip : String) : Bool :=
  zip.length == 5 && zip.toList.all (·.isDigit)

/-- The `propertyType` column value of a row created without an explicit
`propertyType` (the schema default; the summary flow keys on `"all"`). -/
def snapshotPropertyTypeDefault : String := "all"

/-- `prisma.market.upsert` as performed by the markets POST route: update
keeps the old `city`/`state` when the resolver returned null (Prisma
`undefined` skips the field), forces `scope = "city"` and `hidden = false`;
create inserts the resolved values directly. -/
def upsertMarket (markets : List Market) (id : String)
    (city state : Option String) : Market × List Market :=
  match markets.find? (fun m => m.id == id) with
  | some m =>
    let m2 : Market :=
      { m with
        city := match city with | some c => some c | none => m.city,
        state := match state with | some st => some st | none => m.state,
        scope := "city", hidden := false }
    (m2, markets.map (fun x => if x.id == id then m2 else x))
  | none =>
    let m2 : Market := ⟨id, city, state, "city", false⟩
    (m2, markets ++ [m2])

/-- The persistent rows the markets POST route touches: `Market` rows,
`Snapshot` rows, and the current period's `ApiUsage.calls` counter. -/
structure Store where
  markets : List Market
  snapshots : List Snapshot
  usage : Nat
deriving Repr, DecidableEq

/-- The JSON response of the markets POST route. -/
structure MarketsPostResponse where
  status : Nat
  market : Option Market
  snapshot : Option Snapshot
  error : Option String
deriving Repr, DecidableEq

/-- The markets route `POST` (addMarket), as a function of the store, the
request body fields, the current time, the outcome the budget-guarded
`fetchRentCastAggregate` call would produce, and the (never-throwing)
geocoder result `loc` as `(city, stateCode)`.  Mirrors the source order:
validate zip → find latest snapshot for the market (any property type) →
if missing/stale, `withRentCastBudget(fetchRentCastAggregate)` and append a
snapshot row → resolve zip → upsert the Market row → 200; any thrown error
is caught and mapped to 429 only when its message is the literal
`"RentCast monthly call limit reached"`, otherwise to 500 "Server error". -/
def marketsPOST (store : Store) (rawZip : String) (now : Int)
    (provider : ProviderResult) (loc : Option (String × String)) :
    MarketsPostResponse × Store × RouteEvents :=
  let zip := strTrim rawZip
  if !(isValidZip zip) then
    (⟨400, none, none, some "zip (5 digits) is required"⟩, store, ⟨0, 0⟩)
  else
    let marketId := "zip:" ++ zip
    let snap0 := latestSnapshot (fun s => s.marketId == marketId) store.snapshots
    let needsRefresh :=
      match snap0 with
      | none => true
      | some s => !(isFresh s.asOf now 24)
    if needsRefresh then
      let outcome : OpOutcome ProviderSnapshot :=
        match provider with
        | .ok ps => .success ps
        | .fail f => .failure f.message
      let g := withRentCastBudget store.usage outcome
      let ev : RouteEvents := ⟨g.fetches, cond g.reserved 1 0⟩
      match g.result with
      | .ok ps =>
        let newRow : Snapshot :=
          ⟨marketId, snapshotPropertyTypeDefault, ps.asOf, ps.kpis, ps.series⟩
        let city := loc.map (fun l => l.1)
        let state := loc.map (fun l => l.2)
        let um := upsertMarket store.markets marketId city state
        (⟨200, some um.1, some newRow, none⟩,
          ⟨um.2, store.snapshots ++ [newRow], g.calls⟩, ev)
      | .thrown e =>
        if e.message == "RentCast monthly call limit reached" then
          (⟨429, none, none,
              some "API quota exhausted. Cannot make new RentCast calls right now."⟩,
            { store with usage := g.calls }, ev)
        else
          (⟨500, none, none, some "Server error"⟩,
            { store with usage := g.calls }, ev)
    else
      let city := loc.map (fun l => l.1)
      let state := loc.map (fun l => l.2)
      let um := upsertMarket store.markets marketId city state
      (⟨200, some um.1, snap0, none⟩, { store with markets := um.2 }, ⟨0, 0⟩)

theorem argmaxAsOf_eq_none {l : List Snapshot} :
    argmaxAsOf l = none ↔ l = [] := by
  cases l with
  | nil => simp [argmaxAsOf]
  | cons s rest =>
    simp only [argmaxAsOf]
    constructor
    · intro h
      rcases hr : argmaxAsOf rest with _ | b
      · simp only [hr] at h
        cases h
      · simp only [hr] at h
        by_cases hb : b.asOf > s.asOf
        · rw [if_pos hb] at h; cases h
        · rw [if_neg hb] at h; cases h
    · intro h; cases h

theorem argmaxAsOf_mem {l : List Snapshot} {L : Snapshot}
    (h : argmaxAsOf l = some L) : L ∈ l := by
  induction l generalizing L with
  | nil => cases h
  | cons s rest ih =>
    simp only [argmaxAsOf] at h
    rcases hr : argmaxAsOf rest with _ | b <;> simp only [hr] at h
    · cases h; exact List.mem_cons_self _ _
    · by_cases hb : b.asOf > s.asOf
      · rw [if_pos hb] at h
        cases h
        exact List.mem_cons_of_mem _ (ih hr)
      · rw [if_neg hb] at h
        cases h
        exact List.mem_cons_self _ _

theorem argmaxAsOf_max {l : List Snapshot} {L : Snapshot}
    (h : argmaxAsOf l = some L) : ∀ x ∈ l, x.asOf ≤ L.asOf := by
  induction l generalizing L with
  | nil => cases h
  | cons s rest ih =>
    intro x hx
    simp only [argmaxAsOf] at h
    rcases hr : argmaxAsOf rest with _ | b <;> simp only [hr] at h
    · cases h
      rcases List.mem_cons.mp hx with hx | hx
      · exact le_of_eq (congrArg Snapshot.asOf hx)
      · have hnil : rest = [] := argmaxAsOf_eq_none.mp hr
        subst hnil
        cases hx
    · by_cases hb : b.asOf > s.asOf
      · rw [if_pos hb] at h
        cases h
        rcases List.mem_cons.mp hx with hx | hx
        · rw [hx]; exact le_of_lt hb
        · exact ih hr x hx
      · rw [if_neg hb] at h
        cases h
        rcases List.mem_cons.mp hx with hx | hx
        · exact le_of_eq (congrArg Snapshot.asOf hx)
        · exact le_trans (ih hr x hx) (le_of_not_lt hb)

theorem latestSnapshot_mem {p : Snapshot → Bool} {store : List Snapshot}
    {L : Snapshot} (h : latestSnapshot p store = some L) :
    L ∈ store ∧ p L = true := by
  have hm := argmaxAsOf_mem h
  exact ⟨(List.mem_filter.mp hm).1, (List.mem_filter.mp hm).2⟩

theorem latestSnapshot_max {p : Snapshot → Bool} {store : List Snapshot}
    {L : Snapshot} (h : latestSnapshot p store = some L) :
    ∀ x ∈ store, p x = true → x.asOf ≤ L.asOf := by
  intro x hx hpx
  exact argmaxAsOf_max h x (List.mem_filter.mpr ⟨hx, hpx⟩)

theorem latestSnapshot_none {p : Snapshot → Bool} {store : List Snapshot}
    (h : latestSnapshot p store = none) :
    ∀ x ∈ store, p x = false := by
  intro x hx
  have : store.filter p = [] := argmaxAsOf_eq_none.mp h
  by_cases hp : p x = true
  · have : x ∈ store.filter p := List.mem_filter.mpr ⟨hx, hp⟩
    rw [argmaxAsOf_eq_none.mp h] at this
    cases this
  · simpa using hp

theorem summaryGET_fresh {store : List Snapshot} {mid : String} {now : Int}
    {s : Snapshot} (pr : ProviderResult)
    (hs : latestSnapshot (summaryFilter mid) store = some s)
    (hfresh : isFresh s.asOf now 24 = true) :
    summaryGET store (some mid) now pr =
      ({ status := 200, snapshot := some s, stale := false, error := none },
        store, ⟨0, 0⟩) := by
  simp [summaryGET, hs, hfresh]

theorem summaryGET_refresh_ok (store : List Snapshot) (mid : String)
    (now : Int) (ps : ProviderSnapshot)
    (hneed : match latestSnapshot (summaryFilter mid) store with
      | none => True
      | some s => isFresh s.asOf now 24 = false) :
    summaryGET store (some mid) now (.ok ps) =
      ({ status := 200, snapshot := some ⟨mid, "all", ps.asOf, ps.kpis, ps.series⟩,
         stale := false, error := none },
        store ++ [⟨mid, "all", ps.asOf, ps.kpis, ps.series⟩], ⟨1, 0⟩) := by
  rcases hs : latestSnapshot (summaryFilter mid) store with _ | s
  · simp [summaryGET, hs]
  · rw [hs] at hneed
    simp [summaryGET, hs, hneed]

theorem summaryGET_refresh_fail_fallback {store : List Snapshot}
    {mid : String} {now : Int} {s : Snapshot} (f : ProviderFailure)
    (hs : latestSnapshot (summaryFilter mid) store = some s)
    (hstale : isFresh s.asOf now 24 = false) :
    summaryGET store (some mid) now (.fail f) =
      ({ status := 200, snapshot := some s, stale := true,
         error := some f.message }, store, ⟨1, 0⟩) := by
  simp [summaryGET, hs, hstale]

theorem summaryGET_refresh_fail_hard {store : List Snapshot}
    {mid : String} (now : Int) (f : ProviderFailure)
    (hs : latestSnapshot (summaryFilter mid) store = none) :
    summaryGET store (some mid) now (.fail f) =
      ({ status := 500, snapshot := none, stale := false,
         error := some f.message }, store, ⟨1, 0⟩) := by
  simp [summaryGET, hs]

theorem providerFailure_message_ne_empty (f : ProviderFailure) :
    f.message ≠ "" := by
  intro h
  have hd := congrArg String.data h
  cases f <;> simp [ProviderFailure.message] at hd

theorem isFresh_mono {a t1 t2 ttl : Int} (hle : t1 ≤ t2)
    (h : isFresh a t1 ttl = false) : isFresh a t2 ttl = false := by
  simp only [isFresh, decide_eq_false_iff_not, not_lt] at h ⊢
  omega

theorem isFresh_older {a b t1 t2 ttl : Int} (hab : a ≤ b) (hle : t1 ≤ t2)
    (h : isFresh b t1 ttl = false) : isFresh a t2 ttl = false := by
  simp only [isFresh, decide_eq_false_iff_not, not_lt] at h ⊢
  omega

theorem guard_failure_reserved_fetches {T : Type} {c : Nat} (msg : String)
    (hc : c < 50) :
    (withRentCastBudget (T := T) c (.failure msg)).reserved = true ∧
    (withRentCastBudget (T := T) c (.failure msg)).fetches = 1 := by
  unfold withRentCastBudget
  rw [reserve_of_lt hc]
  dsimp only
  split_ifs <;> first | (exact ⟨rfl, rfl⟩) | simp_all

theorem guard_fetches_eq {T : Type} (c : Nat) (o : OpOutcome T) :
    (withRentCastBudget c o).fetches =
      cond (withRentCastBudget c o).reserved 1 0 := by
  by_cases hc : c < 50
  · cases o with
    | success v => rw [guard_success c v hc]; rfl
    | failure msg =>
      obtain ⟨h1, h2⟩ := guard_failure_reserved_fetches (T := T) msg hc
      rw [h1, h2]; rfl
  · rw [guard_quota_exhausted (by simpa [RENTCAST_MONTHLY_LIMIT] using hc) o]; rfl

theorem marketsPOST_fetches_eq_reservations (store : Store) (rawZip : String)
    (now : Int) (provider : ProviderResult) (loc : Option (String × String)) :
    (marketsPOST store rawZip now provider loc).2.2.fetches =
      (marketsPOST store rawZip now provider loc).2.2.reservations := by
  unfold marketsPOST
  dsimp only
  split_ifs <;> try rfl
  split
  · exact guard_fetches_eq _ _
  · split_ifs <;> exact guard_fetches_eq _ _

theorem summaryGET_no_reservation (store : List Snapshot)
    (marketId : Option String) (now : Int) (provider : ProviderResult) :
    (summaryGET store marketId now provider).2.2.reservations = 0 := by
  unfold summaryGET
  cases marketId with
  | none => rfl
  | some mid =>
    dsimp only
    split_ifs
    · split
      · rfl
      · split <;> rfl
    · rfl

/-- The KPI set of the spec's first-add scenario. -/
def kpisC8 : Kpis := ⟨some 250000, some 1500, some 150, some 30, some (7/10 : Rat)⟩

/-- The provider aggregate of the spec's first-add scenario: the KPI set
above plus one series point for 2024-01-01 (asOf as epoch milliseconds of
2024-01-01T00:00:00Z). -/
def aggC8 : ProviderSnapshot :=
  ⟨1704067200000, kpisC8, [⟨"2024-01-01", some 250000, some 1500⟩]⟩

/-- C2 counterexample: the summary route performs an upstream provider
fetch (fetches = 1) with zero budget reservations on a concrete refresh —
`fetchRentCastAggregate` is invoked outside the Budget Guard. -/
theorem summary_fetch_bypasses_guard :
    (summaryGET [] (some "zip:18504") 1704067200000 (.ok aggC8)).2.2.fetches = 1 ∧
    (summaryGET [] (some "zip:18504") 1704067200000 (.ok aggC8)).2.2.reservations = 0 := by
  exact ⟨rfl, rfl⟩

/-- C2 amended: in the markets POST route every provider fetch is matched
by exactly one successful budget reservation (the fetch happens only inside
`withRentCastBudget`), but the summary GET route invokes the provider
directly and never makes a reservation. -/
theorem provider_fetch_guarded_only_in_addMarket :
    (∀ (store : Store) (rawZip : String) (now : Int)
        (provider : ProviderResult) (loc : Option (String × String)),
      (marketsPOST store rawZip now provider loc).2.2.fetches =
        (marketsPOST store rawZip now provider loc).2.2.reservations) ∧
    (∀ (store : List Snapshot) (marketId : Option String) (now : Int)
        (provider : ProviderResult),
      (summaryGET store marketId now provider).2.2.reservations = 0) :=
  ⟨marketsPOST_fetches_eq_reservations, summaryGET_no_reservation⟩

/-- C5: when the summary route's refresh fails, an existing (stale) snapshot
is returned with `stale = true` and the failure's non-empty message, and no
new Snapshot row is written; with no existing snapshot the failure surfaces
as a hard 500 error with no data. -/
theorem stale_fallback_and_hard_error (store : List Snapshot) (mid : String)
    (now : Int) (f : ProviderFailure) :
    (∀ s : Snapshot,
      latestSnapshot (summaryFilter mid) store = some s →
      isFresh s.asOf now 24 = false →
      (summaryGET store (some mid) now (.fail f)).1 =
        { status := 200, snapshot := some s, stale := true,
          error := some f.message } ∧
      f.message ≠ "" ∧
      (summaryGET store (some mid) now (.fail f)).2.1 = store) ∧
    (latestSnapshot (summaryFilter mid) store = none →
      (summaryGET store (some mid) now (.fail f)).1 =
        { status := 500, snapshot := none, stale := false,
          error := some f.message } ∧
      (summaryGET store (some mid) now (.fail f)).1.snapshot = none) := by
  constructor
  · intro s hs hstale
    have h := summaryGET_refresh_fail_fallback f hs hstale
    exact ⟨by rw [h], providerFailure_message_ne_empty f, by rw [h]⟩
  · intro hs
    have h := summaryGET_refresh_fail_hard now f hs
    exact ⟨by rw [h], by rw [h]⟩

/-- A KPI set with kernel-reducible (integer-valued) rationals, for
witnesses that compare whole records. -/
def kpisInt : Kpis := ⟨some 250000, some 1500, some 150, some 30, some 1⟩

/-- A stored snapshot used in witnesses: asOf epoch 0. -/
def snapOld : Snapshot := ⟨"zip:18504", "all", 0, kpisInt, []⟩

/-- Witness for `stale_fallback_and_hard_error`: one stale stored snapshot,
a failing provider (missing API key), a day-later clock. -/
theorem stale_fallback_and_hard_error_witness :
    latestSnapshot (summaryFilter "zip:18504") [snapOld] = some snapOld ∧
    isFresh snapOld.asOf 90000000 24 = false ∧
    (summaryGET [snapOld] (some "zip:18504") 90000000
        (.fail .noApiKey)).1 =
      { status := 200, snapshot := some snapOld, stale := true,
        error := some (ProviderFailure.noApiKey).message } ∧
    (summaryGET [snapOld] (some "zip:18504") 90000000
        (.fail .noApiKey)).2.1 = [snapOld] := by
  have h := (stale_fallback_and_hard_error [snapOld] "zip:18504" 90000000
    .noApiKey).1 snapOld (by decide) (by decide)
  exact ⟨by decide, by decide, h.1, h.2.2⟩

theorem summaryGET_twice_fresh (store : List Snapshot) (mid : String)
    (t1 t2 : Int) (p1 p2 : ProviderResult) (L : Snapshot)
    (hle : t1 ≤ t2)
    (hL : latestSnapshot (summaryFilter mid)
        ((summaryGET store (some mid) t1 p1).2.1) = some L)
    (hfresh : isFresh L.asOf t2 24 = true) :
    (summaryGET ((summaryGET store (some mid) t1 p1).2.1)
        (some mid) t2 p2).2.2 = ⟨0, 0⟩ ∧
    (summaryGET ((summaryGET store (some mid) t1 p1).2.1)
        (some mid) t2 p2).1.snapshot = some L ∧
    (summaryGET store (some mid) t1 p1).1.snapshot = some L := by
  have hcall2 := summaryGET_fresh p2 hL hfresh
  refine ⟨by rw [hcall2], by rw [hcall2], ?_⟩
  rcases hs : latestSnapshot (summaryFilter mid) store with _ | s0
  · cases p1 with
    | ok ps =>
      have hrun := summaryGET_refresh_ok store mid t1 ps (by simp [hs])
      rw [hrun] at hL ⊢
      dsimp only at hL ⊢
      obtain ⟨hmem, hp⟩ := latestSnapshot_mem hL
      rcases List.mem_append.mp hmem with hmem | hmem
      · have hfalse := latestSnapshot_none hs L hmem
        rw [hp] at hfalse
        cases hfalse
      · simp only [List.mem_singleton] at hmem
        rw [hmem]
    | fail f =>
      have hrun := summaryGET_refresh_fail_hard t1 f hs
      rw [hrun] at hL
      dsimp only at hL
      rw [hs] at hL
      cases hL
  · by_cases hf1 : isFresh s0.asOf t1 24 = true
    · have hrun := summaryGET_fresh p1 hs hf1
      rw [hrun] at hL ⊢
      dsimp only at hL ⊢
      rw [hs] at hL
      injection hL with h
      rw [h]
    · have hf1' : isFresh s0.asOf t1 24 = false := by
        cases hx : isFresh s0.asOf t1 24
        · rfl
        · exact absurd hx hf1
      cases p1 with
      | ok ps =>
        have hrun := summaryGET_refresh_ok store mid t1 ps (by simp [hs, hf1'])
        rw [hrun] at hL ⊢
        dsimp only at hL ⊢
        obtain ⟨hmem, hp⟩ := latestSnapshot_mem hL
        rcases List.mem_append.mp hmem with hmem | hmem
        · have hla := latestSnapshot_max hs L hmem hp
          have hcontra := isFresh_older hla hle hf1'
          rw [hfresh] at hcontra
          cases hcontra
        · simp only [List.mem_singleton] at hmem
          rw [hmem]
      | fail f =>
        have hrun := summaryGET_refresh_fail_fallback f hs hf1'
        rw [hrun] at hL ⊢
        dsimp only at hL ⊢
        rw [hs] at hL
        injection hL with h
        rw [← h] at hfresh
        have hcontra := isFresh_mono hle hf1'
        rw [hfresh] at hcontra
        cases hcontra

/-- A provider aggregate with kernel-reducible rationals for the C6 witness. -/
def aggInt : ProviderSnapshot := ⟨1704067200000, kpisInt, []⟩

/-- The snapshot row the summary route writes for `aggInt`. -/
def snapNew : Snapshot := ⟨"zip:18504", "all", 1704067200000, kpisInt, []⟩

/-- The store of the quota-exhausted scenario: counter at the monthly limit,
no Market rows, no Snapshot rows. -/
def storeAtLimit : Store := ⟨[], [], 50⟩

/-- C4 (code behavior at the claim's failing input): with the counter at the
limit and a brand-new ZIP, the guard throws its 429
`RENTCAST_QUOTA_EXHAUSTED` error, but the route's catch block matches the
obsolete message `"RentCast monthly call limit reached"` instead of the
guard's actual message, so the response is HTTP 500 `"Server error"` with no
error code — not the claimed 429 `RENTCAST_QUOTA_EXHAUSTED`.  The store is
unchanged: no Market row and no Snapshot row is created. -/
theorem quota_exhausted_add_returns_500 :
    (withRentCastBudget (T := ProviderSnapshot) 50 (.success aggC8)).result =
      .thrown ⟨quotaExhaustedMessage, 429, some "RENTCAST_QUOTA_EXHAUSTED"⟩ ∧
    (marketsPOST storeAtLimit "18504" 1704067200000 (.ok aggC8)
        (some ("Scranton", "PA"))).1 =
      ⟨500, none, none, some "Server error"⟩ ∧
    (marketsPOST storeAtLimit "18504" 1704067200000 (.ok aggC8)
        (some ("Scranton", "PA"))).2.1 = storeAtLimit ∧
    (marketsPOST storeAtLimit "18504" 1704067200000 (.ok aggC8)
        (some ("Scranton", "PA"))).2.2 = ⟨0, 0⟩ := by
  refine ⟨rfl, rfl, rfl, rfl⟩

/-- The store of the first-add scenario: fresh budget, nothing tracked. -/
def storeFresh : Store := ⟨[], [], 0⟩

/-- C8: adding ZIP 18504 with a fresh budget, an empty store, and a provider
returning the scenario aggregate succeeds with `market.id = "zip:18504"`,
`snapshot.kpis.medianPrice = 250000`, and the usage counter incremented by
exactly 1. -/
theorem add_market_first_add_scenario :
    (marketsPOST storeFresh "18504" 1704067200000 (.ok aggC8)
        (some ("Scranton", "PA"))).1.status = 200 ∧
    ((marketsPOST storeFresh "18504" 1704067200000 (.ok aggC8)
        (some ("Scranton", "PA"))).1.market.map Market.id) =
      some "zip:18504" ∧
    ((marketsPOST storeFresh "18504" 1704067200000 (.ok aggC8)
        (some ("Scranton", "PA"))).1.snapshot.map
          (fun s => s.kpis.medianPrice)) = some (some 250000) ∧
    (marketsPOST storeFresh "18504" 1704067200000 (.ok aggC8)
        (some ("Scranton", "PA"))).2.1.usage = storeFresh.usage + 1 := by
  refine ⟨rfl, rfl, rfl, rfl⟩

/-! ## Market detail alias resolution (`src/app/markets/[id]/page.tsx`) -/

/-- `MARKET_ALIAS` from `src/app/markets/[id]/page.tsx`: the fixed map from
legacy city ids to canonical zip ids. -/
def MARKET_ALIAS (id : String) : Option String :=
  if id = "city:PA:Scranton" then some "zip:18504"
  else if id = "city:NY:Queens" then some "zip:11368"
  else none

/-- `MARKET_ALIAS[rawId] ?? rawId`: alias applied before the registry
lookup, unknown ids pass through unchanged. -/
def resolveMarketId (rawId : String) : String :=
  (MARKET_ALIAS rawId).getD rawId

/-- `prisma.market.findUnique({where: {id}})`. -/
def findMarket (markets : List Market) (id : String) : Option Market :=
  markets.find? (fun m => m.id == id)

/-- The market-detail page's data lookup: resolve the alias, then fetch the
Market row by canonical id. -/
def marketDetailLookup (markets : List Market) (rawId : String) :
    Option Market :=
  findMarket markets (resolveMarketId rawId)

/-- C9: the alias map is applied before the registry lookup —
`city:PA:Scranton` resolves to `zip:18504`, identifiers outside the alias
table pass through unchanged, and a legacy id fetches exactly the Market row
its canonical id fetches, on every store. -/
theorem alias_resolution (markets : List Market) (rawId : String) :
    resolveMarketId "city:PA:Scranton" = "zip:18504" ∧
    marketDetailLookup markets "city:PA:Scranton" =
      marketDetailLookup markets "zip:18504" ∧
    (rawId ≠ "city:PA:Scranton" → rawId ≠ "city:NY:Queens" →
      resolveMarketId rawId = rawId) := by
  refine ⟨rfl, rfl, ?_⟩
  intro h1 h2
  simp [resolveMarketId, MARKET_ALIAS, h1, h2]

/-- Witness for `alias_resolution` at an id outside the alias table and a
one-row store. -/
theorem alias_resolution_witness :
    ("zip:99999" : String) ≠ "city:PA:Scranton" ∧
    ("zip:99999" : String) ≠ "city:NY:Queens" ∧
    resolveMarketId "zip:99999" = "zip:99999" ∧
    marketDetailLookup [⟨"zip:18504", some "Scranton", some "PA", "city", false⟩]
        "city:PA:Scranton" =
      marketDetailLookup [⟨"zip:18504", some "Scranton", some "PA", "city", false⟩]
        "zip:18504" := by
  have h := alias_resolution
    [⟨"zip:18504", some "Scranton", some "PA", "city", false⟩] "zip:99999"
  exact ⟨by decide, by decide, h.2.2 (by decide) (by decide), h.2.1⟩

/-! ## KPI aggregation (`src/providers/rentcast.ts`) -/

/-- One entry of `dataByPropertyType` in the provider's market-data payload
(the per-type sample rows the response carries). -/
structure TypeRow where
  propertyType : Option String
  medianPrice : Option Rat
  medianRent : Option Rat
  totalListings : Option Nat
deriving Repr, DecidableEq

/-- The `saleData` payload fields read by `computeKpisFromMarketData`. -/
structure SaleData where
  medianPrice : Option Rat
  medianPricePerSquareFoot : Option Rat
  medianDaysOnMarket : Option Rat
  totalListings : Option Nat
  dataByPropertyType : List TypeRow
deriving Repr, DecidableEq

/-- The `rentalData` payload fields read by `computeKpisFromMarketData`. -/
structure RentalData where
  medianRent : Option Rat
  totalListings : Option Nat
  dataByPropertyType : List TypeRow
deriving Repr, DecidableEq

/-- `computeConfidence` from `src/providers/rentcast.ts`. -/
def computeConfidence (sampleSize : Nat) : Rat :=
  if 200 ≤ sampleSize then 0.95
  else if 100 ≤ sampleSize then 0.9
  else if 40 ≤ sampleSize then 0.7
  else if 0 < sampleSize then 0.5
  else 0.2

/-- `computeKpisFromMarketData` from `src/providers/rentcast.ts`: every KPI
is read straight off the provider's pre-aggregated fields
(`saleData?.medianPrice ?? null` and friends); only `confidence` is computed
locally, from the total listing counts. -/
def computeKpisFromMarketData (sd : Option SaleData) (rd : Option RentalData) :
    Kpis :=
  { medianPrice := sd.bind SaleData.medianPrice,
    medianRent := rd.bind RentalData.medianRent,
    ppsf := sd.bind SaleData.medianPricePerSquareFoot,
    dom := sd.bind SaleData.medianDaysOnMarket,
    confidence := some (computeConfidence
      ((sd.bind SaleData.totalListings).getD 0 +
        (rd.bind RentalData.totalListings).getD 0)) }

/-- Modelled from the spec's words (no median function exists in the
source): insert into a ≤-sorted list. -/
def insertSorted (x : Rat) : List Rat → List Rat
  | [] => [x]
  | y :: ys => if x ≤ y then x :: y :: ys else y :: insertSorted x ys

/-- Modelled from the spec's words: sort ascending (insertion sort). -/
def sortRats : List Rat → List Rat
  | [] => []
  | x :: xs => insertSorted x (sortRats xs)

/-- Modelled from the spec's words: the median — sort ascending, middle
element for odd length, mean of the two middle elements for even length,
null (none) for the empty list. -/
def medianSpec (xs : List Rat) : Option Rat :=
  match xs with
  | [] => none
  | _ =>
    let sorted := sortRats xs
    let n := sorted.length
    if n % 2 = 1 then sorted.get? (n / 2)
    else
      match sorted.get? (n / 2 - 1), sorted.get? (n / 2) with
      | some a, some b => some ((a + b) / 2)
      | _, _ => none

/-- The price sample values a payload carries: the per-property-type
`medianPrice` entries. -/
def priceSamples (sd : SaleData) : List Rat :=
  sd.dataByPropertyType.filterMap TypeRow.medianPrice

/-- A concrete payload whose pass-through `medianPrice` field (10) differs
from the median of its collected price samples (100). -/
def saleDataCx : SaleData :=
  ⟨some 10, none, none, some 1,
    [⟨some "Single Family", some 100, none, some 1⟩]⟩

/-- C10 counterexample: the KPI `medianPrice` is the provider's
pre-aggregated field, not the median of the collected sample values — on
`saleDataCx` the code yields 10 while the spec's median of the samples
is 100. -/
theorem median_claim_counterexample :
    (computeKpisFromMarketData (some saleDataCx) none).medianPrice =
      some 10 ∧
    medianSpec (priceSamples saleDataCx) = some 100 ∧
    some (10 : Rat) ≠ some (100 : Rat) := by
  refine ⟨rfl, by decide, by decide⟩

/-- C10 amended: the snapshot KPIs are passed through from the provider's
pre-aggregated median fields (null when absent) and are independent of the
per-type sample rows; no median is computed anywhere in the aggregation.
The spec's median definition itself does satisfy the four stated test
values. -/
theorem kpis_are_provider_passthrough (sd : Option SaleData)
    (rd : Option RentalData) :
    (computeKpisFromMarketData sd rd).medianPrice =
      sd.bind SaleData.medianPrice ∧
    (computeKpisFromMarketData sd rd).medianRent =
      rd.bind RentalData.medianRent ∧
    (computeKpisFromMarketData sd rd).ppsf =
      sd.bind SaleData.medianPricePerSquareFoot ∧
    (computeKpisFromMarketData sd rd).dom =
      sd.bind SaleData.medianDaysOnMarket ∧
    (∀ (sd2 : SaleData) (rows : List TypeRow),
      computeKpisFromMarketData
          (some { sd2 with dataByPropertyType := rows }) rd =
        computeKpisFromMarketData (some sd2) rd) ∧
    medianSpec [] = none ∧
    medianSpec [5] = some 5 ∧
    medianSpec [1, 2, 3, 4] = some (5/2) ∧
    medianSpec [3, 1, 2] = some 2 := by
  refine ⟨rfl, rfl, rfl, rfl, fun sd2 rows => rfl, by decide, by decide,
    ?_, by decide⟩
  show some (((2 : Rat) + 3) / 2) = some (5/2)
  norm_num

theorem marketsPOST_fresh {store : Store} {rawZip : String} {now : Int}
    (provider : ProviderResult) (loc : Option (String × String)) {s : Snapshot}
    (hz : isValidZip (strTrim rawZip) = true)
    (hs : latestSnapshot (fun x => x.marketId == "zip:" ++ strTrim rawZip)
        store.snapshots = some s)
    (hf : isFresh s.asOf now 24 = true) :
    marketsPOST store rawZip now provider loc =
      (⟨200, some (upsertMarket store.markets ("zip:" ++ strTrim rawZip)
            (loc.map (fun l => l.1)) (loc.map (fun l => l.2))).1,
          some s, none⟩,
        { store with markets := (upsertMarket store.markets
            ("zip:" ++ strTrim rawZip) (loc.map (fun l => l.1))
            (loc.map (fun l => l.2))).2 },
        ⟨0, 0⟩) := by
  simp [marketsPOST, hz, hs, hf]

/-- C6: a call whose snapshot is still younger than the TTL triggers no
provider invocation and no budget reservation, on both refresh surfaces: if
the summary route runs twice and the latest snapshot present after the
first call is still fresh at the second call's clock, the second call makes
no fetch and no reservation and both calls return that same snapshot; and an
addMarket call that finds a fresh snapshot makes no fetch and no reservation
and returns that snapshot. -/
theorem freshness_idempotence :
    (∀ (store : List Snapshot) (mid : String) (t1 t2 : Int)
        (p1 p2 : ProviderResult) (L : Snapshot),
      t1 ≤ t2 →
      latestSnapshot (summaryFilter mid)
          ((summaryGET store (some mid) t1 p1).2.1) = some L →
      isFresh L.asOf t2 24 = true →
      (summaryGET ((summaryGET store (some mid) t1 p1).2.1)
          (some mid) t2 p2).2.2 = ⟨0, 0⟩ ∧
      (summaryGET ((summaryGET store (some mid) t1 p1).2.1)
          (some mid) t2 p2).1.snapshot = some L ∧
      (summaryGET store (some mid) t1 p1).1.snapshot = some L) ∧
    (∀ (store : Store) (rawZip : String) (now : Int)
        (provider : ProviderResult) (loc : Option (String × String))
        (L : Snapshot),
      isValidZip (strTrim rawZip) = true →
      latestSnapshot (fun x => x.marketId == "zip:" ++ strTrim rawZip)
          store.snapshots = some L →
      isFresh L.asOf now 24 = true →
      (marketsPOST store rawZip now provider loc).2.2 = ⟨0, 0⟩ ∧
      (marketsPOST store rawZip now provider loc).1.snapshot = some L) := by
  constructor
  · intro store mid t1 t2 p1 p2 L hle hL hfresh
    exact summaryGET_twice_fresh store mid t1 t2 p1 p2 L hle hL hfresh
  · intro store rawZip now provider loc L hz hs hf
    rw [marketsPOST_fresh provider loc hz hs hf]
    exact ⟨rfl, rfl⟩

/-- Witness for `freshness_idempotence`: a summary refresh of an empty
store followed by a call one millisecond later, and an addMarket call on a
store holding one fresh snapshot. -/
theorem freshness_idempotence_witness :
    ((1704067200000 : Int) ≤ 1704067200001 ∧
      latestSnapshot (summaryFilter "zip:18504")
        ((summaryGET [] (some "zip:18504") 1704067200000 (.ok aggInt)).2.1) =
        some snapNew ∧
      isFresh snapNew.asOf 1704067200001 24 = true ∧
      (summaryGET ((summaryGET [] (some "zip:18504") 1704067200000
          (.ok aggInt)).2.1) (some "zip:18504") 1704067200001
          (.ok aggInt)).2.2 = ⟨0, 0⟩) ∧
    (isValidZip (strTrim "18504") = true ∧
      latestSnapshot (fun x => x.marketId == "zip:" ++ strTrim "18504")
        [snapNew] = some snapNew ∧
      isFresh snapNew.asOf 1704067200001 24 = true ∧
      (marketsPOST ⟨[], [snapNew], 0⟩ "18504" 1704067200001 (.ok aggInt)
          none).2.2 = ⟨0, 0⟩ ∧
      (marketsPOST ⟨[], [snapNew], 0⟩ "18504" 1704067200001 (.ok aggInt)
          none).1.snapshot = some snapNew) := by
  have h1 := freshness_idempotence.1 [] "zip:18504" 1704067200000
    1704067200001 (.ok aggInt) (.ok aggInt) snapNew (by decide) (by decide)
    (by decide)
  have h2 := freshness_idempotence.2 ⟨[], [snapNew], 0⟩ "18504"
    1704067200001 (.ok aggInt) none snapNew (by decide) (by decide)
    (by decide)
  exact ⟨⟨by decide, by decide, by decide, h1.1⟩,
    ⟨by decide, by decide, by decide, h2.1, h2.2⟩⟩
